import Mathlib

/-!
Verification of the codeway CLI tool (src/codeway/codeway.py).

A shallow embedding of the Code Way analysis CLI.  The tool reads an API
key from the environment, initializes a client, reads a fixed framework
document (`prompts/codeway.md`), reads the user-supplied code files
(per-file failures tolerated), assembles a payload, performs one API
call, and prints the response between banner lines.

Output is modelled as lists of structured lines (one constructor per
`print` call in the source), each with a `render` function producing the
exact string printed by the Python code.  The environment (`Env`)
captures every external input: the credential, client-construction
outcome, the framework-document read outcome, each file's read outcome,
and the outcome the API call would have.
-/

set_option autoImplicit false

namespace Codeway

/-- The environment variable holding the credential (`API_KEY_ENV_VAR`). -/
def apiKeyEnvVar : String := "ANTHROPIC_API_KEY"

/-- Python truthiness of an optional string: `None` and `""` are falsy
(`if not api_key`, `if not system_prompt`). -/
def optFalsy : Option String → Bool
  | none => true
  | some s => s == ""

/-- Model of `os.path.basename`: the part of the path after the last slash,
computed by resetting the accumulator at every `/`. -/
def basename (p : String) : String :=
  ⟨p.data.foldl (fun acc c => if c = '/' then [] else acc ++ [c]) []⟩

/-- Whether `needle` is a prefix of `hay` (over characters). -/
def charsStartWith : List Char → List Char → Bool
  | [], _ => true
  | _ :: _, [] => false
  | a :: as, b :: bs => a == b && charsStartWith as bs

/-- Whether `needle` occurs contiguously inside `hay` (over characters). -/
def charsContain (needle : List Char) : List Char → Bool
  | [] => needle.isEmpty
  | b :: bs => charsStartWith needle (b :: bs) || charsContain needle bs

/-- Python's `needle in hay` substring test. -/
def strContains (hay needle : String) : Bool :=
  charsContain needle.data hay.data

/-- Outcome of one `open(...).read()` attempt in `read_file_content`:
success with the content, `FileNotFoundError`, or any other exception
with its message. -/
inductive ReadOutcome where
  | ok (content : String)
  | notFound
  | err (msg : String)
  deriving DecidableEq, Repr

/-- The content returned by `read_file_content` when it does not exit:
`some` on success, `none` on a read error (non-critical path). -/
def ReadOutcome.content? : ReadOutcome → Option String
  | .ok c => some c
  | .notFound => none
  | .err _ => none

/-- One typed content block of an API response (`block.type`, `block.text`). -/
structure Block where
  type : String
  text : String
  deriving DecidableEq, Repr

/-- The response object returned by `client.messages.create`:
`content` is the block list when present and a list (`message.content`),
`textAttr` is the bare `.text` attribute when the object has one. -/
structure Message where
  content : Option (List Block)
  textAttr : Option String
  deriving DecidableEq, Repr

/-- What the API call would do if performed: return a message, or raise
one of the exception classes caught in `call_claude_api`. -/
inductive ApiOutcome where
  | success (msg : Message)
  | connectionError (msg : String)
  | statusError (code : Nat) (response : String)
  | anthropicError (msg : String)
  | unexpectedError (msg : String)
  deriving DecidableEq, Repr

/-- One line printed to standard output; one constructor per `print`
call writing to stdout in the source. -/
inductive OutLine where
  | frameworkBanner (path : String)
  | readFilesHeader
  | processing (path : String)
  | successCount (n : Nat)
  | verbosePromptsHeader
  | verboseSystemPreview (path : String) (preview : String)
  | verboseUserHeader
  | verboseUserPrompt (prompt : String)
  | verboseFooter
  | sendingRequest (model : String)
  | respBanner
  | respText (t : String)
  | respClose
  deriving DecidableEq, Repr

/-- The exact string each stdout line renders to, copied from the
`print` calls of the source. -/
def OutLine.render : OutLine → String
  | .frameworkBanner path => "--- Reading Code Way framework from: " ++ path ++ " ---"
  | .readFilesHeader => "--- Reading Code Files ---"
  | .processing p => "Processing: " ++ p ++ "..."
  | .successCount n => "Successfully read " ++ toString n ++ " code file(s)."
  | .verbosePromptsHeader => "\n--- Prompts Being Sent to Claude ---"
  | .verboseSystemPreview path preview =>
      "[SYSTEM PROMPT from " ++ path ++ "]:\n" ++ preview ++ "... (truncated)"
  | .verboseUserHeader => "\n[USER PROMPT]:"
  | .verboseUserPrompt s => s
  | .verboseFooter => "------------------------------------"
  | .sendingRequest model => "\nSending request to Claude (model: " ++ model ++ ")..."
  | .respBanner => "\n--- Code Way Analysis Response ---"
  | .respText t => t
  | .respClose => "----------------------------------"

/-- One line printed to standard error; one constructor per
`print(..., file=sys.stderr)` call in the source. -/
inductive ErrLine where
  | envVarNotSet (v : String)
  | envVarAdvice
  | clientInitError (msg : String)
  | fileNotFound (path : String)
  | fileReadError (path : String) (msg : String)
  | skippingFile (path : String)
  | noValidFiles
  | systemPromptMissing
  | noTextWarning
  | unexpectedStructure
  | responseDump (m : Message)
  | connectionError (msg : String)
  | statusError (code : Nat) (response : String)
  | hint401
  | hint429
  | hintContextWindow
  | hintBadRequest
  | anthropicError (msg : String)
  | unexpectedError (msg : String)
  | failedFinal
  deriving DecidableEq, Repr

/-- The exact string each stderr line renders to, copied from the
`print(..., file=sys.stderr)` calls of the source. -/
def ErrLine.render : ErrLine → String
  | .envVarNotSet v => "⚠️ Error: Environment variable '" ++ v ++ "' not set."
  | .envVarAdvice => "Please set the environment variable with your Anthropic API key."
  | .clientInitError e => "⚠️ Error initializing Anthropic client: " ++ e
  | .fileNotFound path => "⚠️ Error: File not found: " ++ path
  | .fileReadError path e => "⚠️ Error reading file " ++ path ++ ": " ++ e
  | .skippingFile path => "Skipping file " ++ path ++ " due to read error."
  | .noValidFiles => "\n⚠️ Error: No valid code files could be read. Exiting."
  | .systemPromptMissing => "⚠️ Error: System prompt (from codeway.md) is missing or empty."
  | .noTextWarning => "⚠️ Warning: No text content found in Claude's response."
  | .unexpectedStructure => "⚠️ Warning: Unexpected response structure from Claude."
  | .responseDump m => "Full response object: " ++ toString (repr m)
  | .connectionError e => "⚠️ API Connection Error: Please check your network connection. " ++ e
  | .statusError code response => "⚠️ API Status Error: " ++ toString code ++ " - " ++ response
  | .hint401 => "   (Check if your API key is correct and active)"
  | .hint429 => "   (You might be exceeding rate limits)"
  | .hintContextWindow => "   (Input code + system prompt likely exceed the model's context window)"
  | .hintBadRequest => "   (Bad request - check input formatting or parameters)"
  | .anthropicError e => "⚠️ Anthropic API Error: " ++ e
  | .unexpectedError e => "⚠️ An unexpected error occurred during API call: " ++ e
  | .failedFinal => "\nFailed to get analysis from Claude."

/-- The stderr lines `read_file_content` prints for a given outcome. -/
def readErrLines (path : String) : ReadOutcome → List ErrLine
  | .ok _ => []
  | .notFound => [.fileNotFound path]
  | .err e => [.fileReadError path e]

/-- The start-of-file boundary marker (line 207 of the source). -/
def startMarker (path : String) : String :=
  "--- Start of code file: " ++ basename path ++ " ---"

/-- The end-of-file boundary marker with its trailing newline
(line 209 of the source). -/
def endMarker (path : String) : String :=
  "--- End of code file: " ++ basename path ++ " ---\n"

/-- Result of the code-file loop of `main` (lines 198-212): stdout
lines, stderr lines, aggregated payload segments, the count of
successfully read files, and the paths whose read was attempted. -/
structure FilesResult where
  stdout : List OutLine
  stderr : List ErrLine
  segments : List String
  validCount : Nat
  paths : List String
  deriving DecidableEq, Repr

/-- The code-file loop of `main`: each path is printed and read in
order; a readable file contributes its three payload segments; a
failed file contributes its read-error lines and a skip notice. -/
def processFiles : List (String × ReadOutcome) → FilesResult
  | [] => ⟨[], [], [], 0, []⟩
  | (p, r) :: rest =>
    let tail := processFiles rest
    match r.content? with
    | some c =>
      ⟨.processing p :: tail.stdout, tail.stderr,
        startMarker p :: c :: endMarker p :: tail.segments,
        tail.validCount + 1, p :: tail.paths⟩
    | none =>
      ⟨.processing p :: tail.stdout,
        readErrLines p r ++ (.skippingFile p :: tail.stderr),
        tail.segments, tail.validCount, p :: tail.paths⟩

/-- Extraction of the textual portion of a response message
(lines 105-117): for a nonempty block list, take the first text-typed
block's text if it is nonempty, else warn and keep `""`; otherwise fall
back to the bare `.text` attribute; otherwise warn about the shape. -/
def extractText (m : Message) : String × List ErrLine :=
  let fallback : String × List ErrLine :=
    match m.textAttr with
    | some t => (t, [])
    | none => ("", [.unexpectedStructure, .responseDump m])
  match m.content with
  | some blocks =>
    if blocks.isEmpty then fallback
    else
      match blocks.find? (fun b => b.type == "text") with
      | some b => if b.text == "" then ("", [.noTextWarning]) else (b.text, [])
      | none => ("", [.noTextWarning])
  | none => fallback

/-- The request constructed in `api_args` (lines 96-101). -/
structure RequestSpec where
  model : String
  maxTokens : Nat
  system : String
  userContent : String
  deriving DecidableEq, Repr

/-- Observable result of `call_claude_api`: the returned value
(`some` text or `None`), the request if one was sent, and the lines
printed. -/
structure CallResult where
  result : Option String
  request : Option RequestSpec
  stdout : List OutLine
  stderr : List ErrLine
  deriving DecidableEq, Repr

/-- The status-code guidance lines of `call_claude_api`
(lines 126-136): 401, 429, and 400 with a context-length check over the
lowercased response body. -/
def statusHints (code : Nat) (response : String) : List ErrLine :=
  if code = 401 then [.hint401]
  else if code = 429 then [.hint429]
  else if code = 400 then
    let body := response.toLower
    if strContains body "context_length_exceeded" || strContains body "token limit" then
      [.hintContextWindow]
    else
      [.hintBadRequest]
  else []

/-- Model of `call_claude_api` (lines 86-143): prints the sending notice, aborts
with `None` when the system prompt is falsy, otherwise sends the
request and either extracts the response text or reports the raised
exception and returns `None`. -/
def callClaudeApi (model : String) (maxTokens : Nat) (systemPrompt : Option String)
    (userPrompt : String) (outcome : ApiOutcome) : CallResult :=
  let send : List OutLine := [.sendingRequest model]
  if optFalsy systemPrompt then
    ⟨none, none, send, [.systemPromptMissing]⟩
  else
    let req : RequestSpec := ⟨model, maxTokens, (systemPrompt.getD ""), userPrompt⟩
    match outcome with
    | .success m =>
      let e := extractText m
      ⟨some e.1, some req, send, e.2⟩
    | .connectionError e => ⟨none, some req, send, [.connectionError e]⟩
    | .statusError code response =>
      ⟨none, some req, send, .statusError code response :: statusHints code response⟩
    | .anthropicError e => ⟨none, some req, send, [.anthropicError e]⟩
    | .unexpectedError e => ⟨none, some req, send, [.unexpectedError e]⟩

/-- The fixed fragments of the user prompt (lines 223-227). -/
def userPromptIntro (n : Nat) : String :=
  "Apply the Code Way framework (provided in the system prompt) to analyze the following code contained in "
    ++ toString n ++ " file(s):\n\n"

/-- The closing instruction of the user prompt (line 226). -/
def userPromptSuffix : String :=
  "\n\nProvide your analysis based *only* on the framework and the code provided."

/-- All external inputs of one run: the credential value, the client
construction outcome (`none` means success), the computed framework
document path, the framework read outcome, the argument files with
their read outcomes in command-line order, the CLI options, and the
outcome the API call would have. -/
structure Env where
  apiKey : Option String
  clientErr : Option String
  promptPath : String
  frameworkDoc : ReadOutcome
  files : List (String × ReadOutcome)
  model : String
  maxTokens : Nat
  verbose : Bool
  apiResult : ApiOutcome

/-- Observable result of a whole run: the exit status, both output
streams, whether the framework document read was attempted, which code
file reads were attempted, and the request sent to the API (if any). -/
structure RunResult where
  exitCode : Nat
  stdout : List OutLine
  stderr : List ErrLine
  frameworkRead : Bool
  codeReads : List String
  request : Option RequestSpec

/-- Model of `main` (lines 147-255): credential check, client initialization,
critical framework read, code-file loop, zero-files check, payload and
prompt assembly, optional verbose preview, the API call, and final
rendering with exit status. -/
def mainRun (env : Env) : RunResult :=
  if optFalsy env.apiKey then
    ⟨1, [], [.envVarNotSet apiKeyEnvVar, .envVarAdvice], false, [], none⟩
  else
    match env.clientErr with
    | some e => ⟨1, [], [.clientInitError e], false, [], none⟩
    | none =>
      let fb : List OutLine := [.frameworkBanner env.promptPath]
      match env.frameworkDoc with
      | .ok doc =>
        let fr := processFiles env.files
        let stdout1 := fb ++ .readFilesHeader :: fr.stdout
        if fr.validCount = 0 then
          ⟨1, stdout1, fr.stderr ++ [.noValidFiles], true, fr.paths, none⟩
        else
          let combined := String.intercalate "\n" fr.segments
          let userPrompt := userPromptIntro fr.validCount ++ combined ++ userPromptSuffix
          let verboseLines : List OutLine :=
            if env.verbose then
              [.verbosePromptsHeader, .verboseSystemPreview env.promptPath (doc.take 500),
                .verboseUserHeader, .verboseUserPrompt userPrompt, .verboseFooter]
            else []
          let call := callClaudeApi env.model env.maxTokens (some doc) userPrompt env.apiResult
          let stdout2 := stdout1 ++ .successCount fr.validCount :: verboseLines ++ call.stdout
          match call.result with
          | some t =>
            ⟨0, stdout2 ++ [.respBanner, .respText t, .respClose],
              fr.stderr ++ call.stderr, true, fr.paths, call.request⟩
          | none =>
            ⟨1, stdout2, fr.stderr ++ call.stderr ++ [.failedFinal], true, fr.paths,
              call.request⟩
      | bad => ⟨1, fb, readErrLines env.promptPath bad, true, [], none⟩

/-! ## Concrete runs used to witness the theorems -/

/-- A run with one readable and one missing file and a plain text response. -/
def envC1 : Env :=
  ⟨some "k", none, "prompts/codeway.md", .ok "FRAMEWORK",
    [("a.py", .ok "print(1)"), ("missing.py", .notFound)],
    "claude-3-sonnet-20240229", 4000, false,
    .success ⟨some [⟨"text", "analysis"⟩], none⟩⟩

/-- A run in which every supplied file path fails to read. -/
def envC2 : Env :=
  ⟨some "k", none, "prompts/codeway.md", .ok "FRAMEWORK",
    [("gone.py", .notFound), ("locked.py", .err "Permission denied")],
    "claude-3-sonnet-20240229", 4000, false,
    .success ⟨some [⟨"text", "analysis"⟩], none⟩⟩

/-- A run with the credential environment variable unset. -/
def envC3 : Env :=
  ⟨none, none, "prompts/codeway.md", .ok "FRAMEWORK", [("a.py", .ok "print(1)")],
    "claude-3-sonnet-20240229", 4000, false,
    .success ⟨some [⟨"text", "analysis"⟩], none⟩⟩

/-- A run in which the framework document is missing. -/
def envC4 : Env :=
  ⟨some "k", none, "prompts/codeway.md", .notFound, [("a.py", .ok "print(1)")],
    "claude-3-sonnet-20240229", 4000, false,
    .success ⟨some [⟨"text", "analysis"⟩], none⟩⟩

/-- A run whose response content holds typed blocks but no text block. -/
def envC7 : Env :=
  ⟨some "k", none, "prompts/codeway.md", .ok "FRAMEWORK", [("a.py", .ok "print(1)")],
    "claude-3-sonnet-20240229", 4000, false,
    .success ⟨some [⟨"tool_use", "x"⟩], none⟩⟩

/-- A run whose response content is a single text block. -/
def envC8 : Env :=
  ⟨some "k", none, "prompts/codeway.md", .ok "FRAMEWORK", [("a.py", .ok "print(1)")],
    "claude-3-sonnet-20240229", 4000, false,
    .success ⟨some [⟨"text", "hello world"⟩], none⟩⟩

/-- A run whose response content starts with an empty text block. -/
def envC10 : Env :=
  ⟨some "k", none, "prompts/codeway.md", .ok "FRAMEWORK", [("a.py", .ok "print(1)")],
    "claude-3-sonnet-20240229", 4000, false,
    .success ⟨some [⟨"text", ""⟩, ⟨"text", "later"⟩], none⟩⟩

/-! ## Helper lemmas -/

theorem processFiles_paths (fs : List (String × ReadOutcome)) :
    (processFiles fs).paths = fs.map Prod.fst := by
  induction fs with
  | nil => rfl
  | cons hd tl ih =>
    obtain ⟨p, r⟩ := hd
    cases h : r.content? <;> simp [processFiles, h, ih]

theorem processFiles_validCount_pos (fs : List (String × ReadOutcome)) (p : String)
    (c : String) (h : (p, ReadOutcome.ok c) ∈ fs) :
    0 < (processFiles fs).validCount := by
  induction fs with
  | nil => cases h
  | cons hd tl ih =>
    obtain ⟨q, r⟩ := hd
    rcases List.mem_cons.mp h with heq | hmem
    · obtain ⟨rfl, rfl⟩ := Prod.mk.injEq .. ▸ heq
      simp [processFiles, ReadOutcome.content?]
    · have hpos := ih hmem
      cases hc : r.content?
      · simpa [processFiles, hc] using hpos
      · simp [processFiles, hc]

theorem processFiles_validCount_zero (fs : List (String × ReadOutcome))
    (h : ∀ pr ∈ fs, (pr.2).content? = none) :
    (processFiles fs).validCount = 0 := by
  induction fs with
  | nil => rfl
  | cons hd tl ih =>
    obtain ⟨p, r⟩ := hd
    have hr : r.content? = none := h (p, r) (List.mem_cons_self _ _)
    simp [processFiles, hr]
    exact ih fun pr hpr => h pr (List.mem_cons_of_mem _ hpr)

theorem respBanner_not_mem_processFiles (fs : List (String × ReadOutcome)) :
    OutLine.respBanner ∉ (processFiles fs).stdout := by
  induction fs with
  | nil => simp [processFiles]
  | cons hd tl ih =>
    obtain ⟨p, r⟩ := hd
    cases h : r.content? <;> simp [processFiles, h] <;> exact fun hm => ih hm

theorem callClaudeApi_result (model : String) (maxTokens : Nat) (sp : Option String)
    (up : String) (outcome : ApiOutcome) :
    (callClaudeApi model maxTokens sp up outcome).result =
      if optFalsy sp then none
      else match outcome with
        | .success m => some (extractText m).1
        | _ => none := by
  cases h : optFalsy sp <;> cases outcome <;> simp [callClaudeApi, h]

theorem callClaudeApi_stdout (model : String) (maxTokens : Nat) (sp : Option String)
    (up : String) (outcome : ApiOutcome) :
    (callClaudeApi model maxTokens sp up outcome).stdout = [.sendingRequest model] := by
  cases hs : optFalsy sp <;> cases outcome <;> simp [callClaudeApi, hs]

/-- If every possible call result is `None`, the run exits 1. -/
theorem exitCode_one_aux (env : Env)
    (hres : ∀ sp up, (callClaudeApi env.model env.maxTokens sp up env.apiResult).result = none) :
    (mainRun env).exitCode = 1 := by
  unfold mainRun
  cases hk : optFalsy env.apiKey
  · cases hc : env.clientErr
    · cases hd : env.frameworkDoc
      case ok doc =>
        by_cases hv : (processFiles env.files).validCount = 0 <;> simp [hv, hres]
      case notFound => simp
      case err => simp
    · simp
  · simp

/-- When the API outcome is not a success, the run always exits 1: every
path of `main` other than the final response-rendering branch exits 1,
and that branch needs a non-`None` call result. -/
theorem exitCode_one_of_not_success (env : Env)
    (h : ∀ m, env.apiResult ≠ .success m) :
    (mainRun env).exitCode = 1 := by
  apply exitCode_one_aux
  intro sp up
  cases ha : env.apiResult
  case success m => exact absurd ha (h m)
  all_goals cases hs : optFalsy sp <;> simp [callClaudeApi, hs]

/-- When the run reaches the API call and the call returns text `t`,
the run exits 0 and the standard output ends with exactly one
banner-delimited response block carrying `t`, the opening banner
appearing nowhere earlier. -/
theorem mainRun_success_shape (env : Env) (doc t : String)
    (hkey : optFalsy env.apiKey = false) (hclient : env.clientErr = none)
    (hdoc : env.frameworkDoc = .ok doc)
    (hpos : ¬(processFiles env.files).validCount = 0)
    (hres : ∀ up, (callClaudeApi env.model env.maxTokens (some doc) up env.apiResult).result = some t) :
    (mainRun env).exitCode = 0 ∧
      ∃ pre, (mainRun env).stdout = pre ++ [.respBanner, .respText t, .respClose] ∧
        OutLine.respBanner ∉ pre := by
  unfold mainRun
  simp only [hkey, Bool.false_eq_true, if_false, hclient, hdoc, hpos, if_false, hres]
  refine ⟨trivial, _, rfl, ?_⟩
  have hpf := respBanner_not_mem_processFiles env.files
  cases hv : env.verbose <;> simp [callClaudeApi_stdout, hv, hpf]

theorem optFalsy_some_of_ne (doc : String) (h : ¬doc = "") : optFalsy (some doc) = false := by
  simpa [optFalsy] using h

/-! ## Claim theorems -/

/-- C1: in every run where the credential is set, the client
initializes, the framework document reads successfully and is nonempty,
at least one supplied file path is readable, and the API call returns a
message, the program exits with status 0 and prints exactly one
banner-delimited response block on standard output, no matter how many
other supplied paths failed to read. -/
theorem c1_one_response_block (env : Env) (doc : String) (msg : Message)
    (hkey : optFalsy env.apiKey = false)
    (hclient : env.clientErr = none)
    (hdoc : env.frameworkDoc = ReadOutcome.ok doc)
    (hdocne : ¬doc = "")
    (hfile : ∃ p c, (p, ReadOutcome.ok c) ∈ env.files)
    (hapi : env.apiResult = ApiOutcome.success msg) :
    (mainRun env).exitCode = 0 ∧
      ∃ pre t, (mainRun env).stdout = pre ++ [.respBanner, .respText t, .respClose] ∧
        OutLine.respBanner ∉ pre := by
  obtain ⟨p, c, hm⟩ := hfile
  have hpos : ¬(processFiles env.files).validCount = 0 := by
    have := processFiles_validCount_pos env.files p c hm
    omega
  have hs := optFalsy_some_of_ne doc hdocne
  have hres : ∀ up, (callClaudeApi env.model env.maxTokens (some doc) up env.apiResult).result
      = some (extractText msg).1 := fun up => by simp [callClaudeApi, hs, hapi]
  obtain ⟨h0, pre, hstdout, hnm⟩ :=
    mainRun_success_shape env doc _ hkey hclient hdoc hpos hres
  exact ⟨h0, pre, (extractText msg).1, hstdout, hnm⟩

/-- C2: in every run where every supplied file path fails to read, the
program exits with status 1 and never sends a request: the zero-files
error fires before the network call. -/
theorem c2_all_unreadable (env : Env)
    (h : ∀ pr ∈ env.files, (pr.2).content? = none) :
    (mainRun env).exitCode = 1 ∧ (mainRun env).request = none := by
  have hz := processFiles_validCount_zero env.files h
  unfold mainRun
  cases hk : optFalsy env.apiKey
  · cases hc : env.clientErr
    · cases hd : env.frameworkDoc
      case ok doc => simp [hz]
      case notFound => simp
      case err => simp
    · simp
  · simp

/-- C3: in every run where the credential environment variable is unset
or empty, the program exits with status 1 without having read the
framework document or any code file. -/
theorem c3_missing_credential (env : Env) (h : optFalsy env.apiKey = true) :
    (mainRun env).exitCode = 1 ∧ (mainRun env).frameworkRead = false ∧
      (mainRun env).codeReads = [] := by
  simp [mainRun, h]

/-- C4: in every run where the framework document cannot be read, the
program exits with status 1 without having read any user-supplied code
file. -/
theorem c4_framework_unreadable (env : Env) (h : env.frameworkDoc.content? = none) :
    (mainRun env).exitCode = 1 ∧ (mainRun env).codeReads = [] := by
  unfold mainRun
  cases hk : optFalsy env.apiKey
  · cases hc : env.clientErr
    · cases hd : env.frameworkDoc
      case ok doc => simp [hd, ReadOutcome.content?] at h
      case notFound => simp
      case err => simp
    · simp
  · simp

/-- C5: whenever the remote-call operation is invoked with an absent or
empty system instruction, it prints the missing-system-prompt
diagnostic and returns the failure signal without constructing or
sending any request. -/
theorem c5_missing_system_prompt (model : String) (maxTokens : Nat) (sp : Option String)
    (up : String) (outcome : ApiOutcome) (h : optFalsy sp = true) :
    (callClaudeApi model maxTokens sp up outcome).result = none ∧
      (callClaudeApi model maxTokens sp up outcome).request = none ∧
      ErrLine.systemPromptMissing ∈ (callClaudeApi model maxTokens sp up outcome).stderr ∧
      ErrLine.systemPromptMissing.render =
        "⚠️ Error: System prompt (from codeway.md) is missing or empty." := by
  simp [callClaudeApi, h, ErrLine.render]

/-- C6: for every list of files, the assembled payload segment list is
the in-order concatenation, over the successfully read files, of the
three segments start marker, raw content, end marker (the end marker
carrying its trailing newline), so every segment of an earlier file
comes strictly before every segment of a later file. -/
theorem c6_payload_order (files : List (String × ReadOutcome)) :
    (processFiles files).segments =
      (files.filterMap (fun pr => ((pr.2).content?).map (fun c => (pr.1, c)))).flatMap
        (fun pc => [startMarker pc.1, pc.2, endMarker pc.1]) := by
  induction files with
  | nil => rfl
  | cons hd tl ih =>
    obtain ⟨p, r⟩ := hd
    cases hc : r.content? <;> simp [processFiles, hc, ih]

/-- C7: when the API response content is a (nonempty) block list with
no text-typed block, the call warns about missing text content and
returns empty text rather than the failure signal, and the run still
exits with status 0: empty returned text is never conflated with a call
failure. -/
theorem c7_no_text_block (env : Env) (doc up : String) (blocks : List Block)
    (ta : Option String)
    (hkey : optFalsy env.apiKey = false)
    (hclient : env.clientErr = none)
    (hdoc : env.frameworkDoc = ReadOutcome.ok doc)
    (hdocne : ¬doc = "")
    (hfile : ∃ p c, (p, ReadOutcome.ok c) ∈ env.files)
    (hapi : env.apiResult = ApiOutcome.success ⟨some blocks, ta⟩)
    (hne : blocks ≠ [])
    (hnotext : ∀ b ∈ blocks, ¬b.type = "text") :
    (callClaudeApi env.model env.maxTokens (some doc) up env.apiResult).result = some "" ∧
      ErrLine.noTextWarning ∈
        (callClaudeApi env.model env.maxTokens (some doc) up env.apiResult).stderr ∧
      (mainRun env).exitCode = 0 := by
  have hs := optFalsy_some_of_ne doc hdocne
  have hfind : blocks.find? (fun b => b.type == "text") = none :=
    List.find?_eq_none.mpr (fun b hb => by simpa using hnotext b hb)
  have hext : extractText ⟨some blocks, ta⟩ = ("", [.noTextWarning]) := by
    cases blocks with
    | nil => exact absurd rfl hne
    | cons b bs => simp [extractText, hfind]
  have hres : ∀ u, (callClaudeApi env.model env.maxTokens (some doc) u env.apiResult).result
      = some "" := fun u => by simp [callClaudeApi, hs, hapi, hext]
  obtain ⟨p, c, hm⟩ := hfile
  have hpos : ¬(processFiles env.files).validCount = 0 := by
    have := processFiles_validCount_pos env.files p c hm
    omega
  refine ⟨hres up, ?_, (mainRun_success_shape env doc "" hkey hclient hdoc hpos hres).1⟩
  simp [callClaudeApi, hs, hapi, hext]

/-- C8: when the API response content is a list holding a single
text-typed block, the call returns exactly that block's text, and the
line printed inside the output banner is that text character for
character, with no transformation applied. -/
theorem c8_roundtrip (env : Env) (doc up : String) (b : Block) (ta : Option String)
    (hkey : optFalsy env.apiKey = false)
    (hclient : env.clientErr = none)
    (hdoc : env.frameworkDoc = ReadOutcome.ok doc)
    (hdocne : ¬doc = "")
    (hfile : ∃ p c, (p, ReadOutcome.ok c) ∈ env.files)
    (hapi : env.apiResult = ApiOutcome.success ⟨some [b], ta⟩)
    (hb : b.type = "text") :
    (callClaudeApi env.model env.maxTokens (some doc) up env.apiResult).result = some b.text ∧
      (OutLine.respText b.text).render = b.text ∧
      ∃ pre, (mainRun env).stdout = pre ++ [.respBanner, .respText b.text, .respClose] ∧
        OutLine.respBanner ∉ pre := by
  have hs := optFalsy_some_of_ne doc hdocne
  have hext1 : (extractText ⟨some [b], ta⟩).1 = b.text := by
    by_cases he : b.text = "" <;> simp [extractText, hb, he]
  have hres : ∀ u, (callClaudeApi env.model env.maxTokens (some doc) u env.apiResult).result
      = some b.text := fun u => by simp [callClaudeApi, hs, hapi, hext1]
  obtain ⟨p, c, hm⟩ := hfile
  have hpos : ¬(processFiles env.files).validCount = 0 := by
    have := processFiles_validCount_pos env.files p c hm
    omega
  obtain ⟨h0, pre, hst, hnm⟩ := mainRun_success_shape env doc b.text hkey hclient hdoc hpos hres
  exact ⟨hres up, rfl, pre, hst, hnm⟩

/-- C9: a status-coded API failure makes the call report the numeric
status with the server detail and return the failure signal, so the run
exits with status 1; a 429 adds the rate-limit hint, a 401 the
credential hint, and a 400 adds the context-window hint exactly when
the lowercased detail contains the context-length or token-limit
wording, the malformed-input hint otherwise. -/
theorem c9_status_error (model : String) (maxTokens : Nat) (sp : Option String)
    (up : String) (code : Nat) (resp : String)
    (hsp : optFalsy sp = false) :
    (callClaudeApi model maxTokens sp up (.statusError code resp)).result = none ∧
      ErrLine.statusError code resp ∈
        (callClaudeApi model maxTokens sp up (.statusError code resp)).stderr ∧
      (ErrLine.statusError code resp).render =
        "⚠️ API Status Error: " ++ toString code ++ " - " ++ resp ∧
      (code = 429 → ErrLine.hint429 ∈
        (callClaudeApi model maxTokens sp up (.statusError code resp)).stderr) ∧
      (code = 401 → ErrLine.hint401 ∈
        (callClaudeApi model maxTokens sp up (.statusError code resp)).stderr) ∧
      (code = 400 →
        ((strContains resp.toLower "context_length_exceeded"
            || strContains resp.toLower "token limit") = true →
          ErrLine.hintContextWindow ∈
            (callClaudeApi model maxTokens sp up (.statusError code resp)).stderr) ∧
        ((strContains resp.toLower "context_length_exceeded"
            || strContains resp.toLower "token limit") = false →
          ErrLine.hintBadRequest ∈
            (callClaudeApi model maxTokens sp up (.statusError code resp)).stderr)) ∧
      (∀ env : Env, env.apiResult = .statusError code resp → (mainRun env).exitCode = 1) := by
  refine ⟨?_, ?_, rfl, ?_, ?_, ?_, ?_⟩
  · simp [callClaudeApi, hsp]
  · simp [callClaudeApi, hsp]
  · rintro rfl
    simp [callClaudeApi, hsp, statusHints]
  · rintro rfl
    simp [callClaudeApi, hsp, statusHints]
  · rintro rfl
    constructor <;> intro hw <;> simp [callClaudeApi, hsp, statusHints, hw]
  · intro env ha
    exact exitCode_one_of_not_success env (fun m hm => by rw [ha] at hm; cases hm)

/-- C10: when the first text-typed block of the response content has
empty text, the call emits the no-text-content warning yet still
returns the empty string rather than the failure signal, so the run
prints an empty response block and exits with status 0 — at the public
interface this is the same outcome as a response with no text block at
all. -/
theorem c10_empty_text_block (env : Env) (doc up : String) (blocks : List Block)
    (ta : Option String) (b : Block)
    (hkey : optFalsy env.apiKey = false)
    (hclient : env.clientErr = none)
    (hdoc : env.frameworkDoc = ReadOutcome.ok doc)
    (hdocne : ¬doc = "")
    (hfile : ∃ p c, (p, ReadOutcome.ok c) ∈ env.files)
    (hapi : env.apiResult = ApiOutcome.success ⟨some blocks, ta⟩)
    (hfind : blocks.find? (fun x => x.type == "text") = some b)
    (hempty : b.text = "") :
    ErrLine.noTextWarning ∈
        (callClaudeApi env.model env.maxTokens (some doc) up env.apiResult).stderr ∧
      (callClaudeApi env.model env.maxTokens (some doc) up env.apiResult).result = some "" ∧
      (mainRun env).exitCode = 0 := by
  have hs := optFalsy_some_of_ne doc hdocne
  have hne : blocks ≠ [] := by
    rintro rfl
    simp at hfind
  have hext : extractText ⟨some blocks, ta⟩ = ("", [.noTextWarning]) := by
    cases blocks with
    | nil => exact absurd rfl hne
    | cons x xs => simp [extractText, hfind, hempty]
  have hres : ∀ u, (callClaudeApi env.model env.maxTokens (some doc) u env.apiResult).result
      = some "" := fun u => by simp [callClaudeApi, hs, hapi, hext]
  obtain ⟨p, c, hm⟩ := hfile
  have hpos : ¬(processFiles env.files).validCount = 0 := by
    have := processFiles_validCount_pos env.files p c hm
    omega
  refine ⟨?_, hres up, (mainRun_success_shape env doc "" hkey hclient hdoc hpos hres).1⟩
  simp [callClaudeApi, hs, hapi, hext]

/-! ## Witnesses -/

/-- Witness for C1 on the concrete run `envC1`. -/
theorem c1_witness :
    (mainRun envC1).exitCode = 0 ∧
      ∃ pre t, (mainRun envC1).stdout = pre ++ [.respBanner, .respText t, .respClose] ∧
        OutLine.respBanner ∉ pre :=
  c1_one_response_block envC1 "FRAMEWORK" ⟨some [⟨"text", "analysis"⟩], none⟩
    (by decide) rfl rfl (by decide) ⟨"a.py", "print(1)", by decide⟩ rfl

/-- Witness for C2 on the concrete run `envC2`. -/
theorem c2_witness :
    (mainRun envC2).exitCode = 1 ∧ (mainRun envC2).request = none :=
  c2_all_unreadable envC2 (by decide)

/-- Witness for C3 on the concrete run `envC3`. -/
theorem c3_witness :
    (mainRun envC3).exitCode = 1 ∧ (mainRun envC3).frameworkRead = false ∧
      (mainRun envC3).codeReads = [] :=
  c3_missing_credential envC3 (by decide)

/-- Witness for C4 on the concrete run `envC4`. -/
theorem c4_witness :
    (mainRun envC4).exitCode = 1 ∧ (mainRun envC4).codeReads = [] :=
  c4_framework_unreadable envC4 (by decide)

/-- Witness for C5 at a concrete call with an absent system prompt. -/
theorem c5_witness :
    (callClaudeApi "claude-3-sonnet-20240229" 4000 none "user prompt"
        (.success ⟨some [⟨"text", "analysis"⟩], none⟩)).result = none ∧
      (callClaudeApi "claude-3-sonnet-20240229" 4000 none "user prompt"
        (.success ⟨some [⟨"text", "analysis"⟩], none⟩)).request = none ∧
      ErrLine.systemPromptMissing ∈
        (callClaudeApi "claude-3-sonnet-20240229" 4000 none "user prompt"
          (.success ⟨some [⟨"text", "analysis"⟩], none⟩)).stderr ∧
      ErrLine.systemPromptMissing.render =
        "⚠️ Error: System prompt (from codeway.md) is missing or empty." :=
  c5_missing_system_prompt "claude-3-sonnet-20240229" 4000 none "user prompt"
    (.success ⟨some [⟨"text", "analysis"⟩], none⟩) (by decide)

/-- Witness for C7 on the concrete run `envC7`. -/
theorem c7_witness :
    (callClaudeApi envC7.model envC7.maxTokens (some "FRAMEWORK") "up" envC7.apiResult).result
        = some "" ∧
      ErrLine.noTextWarning ∈
        (callClaudeApi envC7.model envC7.maxTokens (some "FRAMEWORK") "up" envC7.apiResult).stderr ∧
      (mainRun envC7).exitCode = 0 :=
  c7_no_text_block envC7 "FRAMEWORK" "up" [⟨"tool_use", "x"⟩] none
    (by decide) rfl rfl (by decide) ⟨"a.py", "print(1)", by decide⟩ rfl
    (by decide) (by decide)

/-- Witness for C8 on the concrete run `envC8`. -/
theorem c8_witness :
    (callClaudeApi envC8.model envC8.maxTokens (some "FRAMEWORK") "up" envC8.apiResult).result
        = some (Block.text ⟨"text", "hello world"⟩) ∧
      (OutLine.respText (Block.text ⟨"text", "hello world"⟩)).render
        = Block.text ⟨"text", "hello world"⟩ ∧
      ∃ pre, (mainRun envC8).stdout
          = pre ++ [.respBanner, .respText (Block.text ⟨"text", "hello world"⟩), .respClose] ∧
        OutLine.respBanner ∉ pre :=
  c8_roundtrip envC8 "FRAMEWORK" "up" ⟨"text", "hello world"⟩ none
    (by decide) rfl rfl (by decide) ⟨"a.py", "print(1)", by decide⟩ rfl rfl

/-- Witness for C9 at a concrete 429 status failure. -/
theorem c9_witness :
    (callClaudeApi "claude-3-sonnet-20240229" 4000 (some "FRAMEWORK") "up"
        (.statusError 429 "rate limited")).result = none ∧
      ErrLine.statusError 429 "rate limited" ∈
        (callClaudeApi "claude-3-sonnet-20240229" 4000 (some "FRAMEWORK") "up"
          (.statusError 429 "rate limited")).stderr ∧
      (ErrLine.statusError 429 "rate limited").render =
        "⚠️ API Status Error: " ++ toString 429 ++ " - " ++ "rate limited" ∧
      (429 = 429 → ErrLine.hint429 ∈
        (callClaudeApi "claude-3-sonnet-20240229" 4000 (some "FRAMEWORK") "up"
          (.statusError 429 "rate limited")).stderr) ∧
      (429 = 401 → ErrLine.hint401 ∈
        (callClaudeApi "claude-3-sonnet-20240229" 4000 (some "FRAMEWORK") "up"
          (.statusError 429 "rate limited")).stderr) ∧
      (429 = 400 →
        ((strContains "rate limited".toLower "context_length_exceeded"
            || strContains "rate limited".toLower "token limit") = true →
          ErrLine.hintContextWindow ∈
            (callClaudeApi "claude-3-sonnet-20240229" 4000 (some "FRAMEWORK") "up"
              (.statusError 429 "rate limited")).stderr) ∧
        ((strContains "rate limited".toLower "context_length_exceeded"
            || strContains "rate limited".toLower "token limit") = false →
          ErrLine.hintBadRequest ∈
            (callClaudeApi "claude-3-sonnet-20240229" 4000 (some "FRAMEWORK") "up"
              (.statusError 429 "rate limited")).stderr)) ∧
      (∀ env : Env, env.apiResult = .statusError 429 "rate limited" →
        (mainRun env).exitCode = 1) :=
  c9_status_error "claude-3-sonnet-20240229" 4000 (some "FRAMEWORK") "up" 429 "rate limited"
    (by decide)

/-- Witness for C10 on the concrete run `envC10`. -/
theorem c10_witness :
    ErrLine.noTextWarning ∈
        (callClaudeApi envC10.model envC10.maxTokens (some "FRAMEWORK") "up"
          envC10.apiResult).stderr ∧
      (callClaudeApi envC10.model envC10.maxTokens (some "FRAMEWORK") "up"
          envC10.apiResult).result = some "" ∧
      (mainRun envC10).exitCode = 0 :=
  c10_empty_text_block envC10 "FRAMEWORK" "up" [⟨"text", ""⟩, ⟨"text", "later"⟩] none
    ⟨"text", ""⟩
    (by decide) rfl rfl (by decide) ⟨"a.py", "print(1)", by decide⟩ rfl
    (by decide) rfl

end Codeway
